import Mathlib

set_option maxHeartbeats 1000000

/-
Verification of the smartrent-testing k6 load-test scripts.

The scripts under src are thin k6 scenarios: each iteration performs a fixed
ordered sequence of HTTP steps, runs check predicates over each response, and
records observations into custom metrics (a shared Rate metric named errors,
per-step Trend duration metrics, and a Counter named successful_operations).

The embedding below models one iteration of each script as a pure function
from the injected HTTP responses (the request capability) to the ordered list
of metric observations the iteration records.  JSON response bodies are
modelled as a Json inductive (with the JavaScript undefined value), and the
scripts check predicates, truthiness tests and field extractions are
translated directly from the source.  Request payloads, console output and
sleeps are not observable in any claim and are not modelled; each HTTP
exchange additionally emits a request event carrying its method and URL.
-/

namespace SmartRent

/-- JSON values as produced by JSON.parse, extended with the JavaScript
undefined value, which property access yields for missing fields. -/
inductive Json where
  | null
  | undef
  | bool (b : Bool)
  | num (n : Int)
  | str (s : String)
  | arr (elems : List Json)
  | obj (fields : List (String × Json))

/-- JavaScript truthiness. -/
def Json.truthy : Json → Bool
  | .null => false
  | .undef => false
  | .bool b => b
  | .num n => n != 0
  | .str s => s != ""
  | .arr _ => true
  | .obj _ => true

/-- Whether a value is the JavaScript undefined value. -/
def Json.isUndefined : Json → Bool
  | .undef => true
  | _ => false

/-- Property access a.k; none models a thrown TypeError (property access on
null or undefined).  Missing fields of objects, and any field of a primitive
or array, give undefined. -/
def Json.get? : Json → String → Option Json
  | .null, _ => none
  | .undef, _ => none
  | .obj fs, k => some ((fs.lookup k).getD .undef)
  | _, _ => some .undef

mutual

/-- String coercion of a value inside a template literal. -/
def Json.toTemplateString : Json → String
  | .null => "null"
  | .undef => "undefined"
  | .bool true => "true"
  | .bool false => "false"
  | .num n => toString n
  | .str s => s
  | .arr xs => String.intercalate "," (Json.arrTemplateStrings xs)
  | .obj _ => "[object Object]"

/-- Array elements under template coercion; null and undefined render as the
empty string, as in JavaScript Array.prototype.toString. -/
def Json.arrTemplateStrings : List Json → List String
  | [] => []
  | .null :: tl => "" :: Json.arrTemplateStrings tl
  | .undef :: tl => "" :: Json.arrTemplateStrings tl
  | x :: tl => x.toTemplateString :: Json.arrTemplateStrings tl

end

/-- JavaScript (a || b): a when truthy, b otherwise. -/
def jsOr (a b : Json) : Json := if a.truthy then a else b

/-- The check body.data && body.data.k, run inside the try catch wrapper the
scripts use: a parse failure or a thrown property access yields false. -/
def checkDataField (k : String) : Option Json → Bool
  | none => false
  | some b =>
    match b.get? "data" with
    | none => false
    | some d =>
      d.truthy &&
        (match d.get? k with
         | none => false
         | some v => v.truthy)

/-- The check body.data !== undefined, run inside the try catch wrapper. -/
def checkDataDefined : Option Json → Bool
  | none => false
  | some b =>
    match b.get? "data" with
    | none => false
    | some d => !d.isUndefined

/-- The value body.data.k, total: any parse failure, throw or missing field
gives null.  Used for the access token a successful login returns. -/
def dataField (k : String) : Option Json → Json
  | none => Json.null
  | some b =>
    match b.get? "data" with
    | none => Json.null
    | some d =>
      match d.get? k with
      | none => Json.null
      | some v => v

/-- The access token body.data.accessToken of a login response body. -/
def accessTokenOf (b? : Option Json) : Json := dataField "accessToken" b?

/-- Extraction if (body.data.content && body.data.content.length > 0)
listingId = body.data.content[0].id, with throws caught and ignored.  The
scripts consume JSON arrays here; array indexing and length are modelled for
arrays, other truthy shapes extract nothing. -/
def extractContentFirstId (b? : Option Json) : Json :=
  match b? with
  | none => Json.null
  | some b =>
    match b.get? "data" with
    | none => Json.null
    | some d =>
      match d.get? "content" with
      | none => Json.null
      | some c =>
        match c with
        | .arr (x :: _) =>
          (match x.get? "id" with
           | none => Json.null
           | some i => i)
        | _ => Json.null

/-- Extraction if (body.data && body.data.id) createdListingId = body.data.id,
with throws caught and ignored. -/
def extractDataId (b? : Option Json) : Json :=
  match b? with
  | none => Json.null
  | some b =>
    match b.get? "data" with
    | none => Json.null
    | some d =>
      if d.truthy then
        match d.get? "id" with
        | none => Json.null
        | some i => if i.truthy then i else Json.null
      else Json.null

/-- Extraction if (body.data && Array.isArray(body.data) && body.data.length
> 0) x = body.data[0].k, with throws caught and ignored. -/
def extractArrFirst (k : String) (b? : Option Json) : Json :=
  match b? with
  | none => Json.null
  | some b =>
    match b.get? "data" with
    | none => Json.null
    | some d =>
      match d with
      | .arr (x :: _) =>
        (match x.get? k with
         | none => Json.null
         | some i => i)
      | _ => Json.null

/-- One HTTP response as the scripts observe it: the status code, the body as
an optional parsed JSON value (none when JSON.parse of the body throws), and
the measured wall-clock latency in milliseconds.  A k6 transport failure
surfaces as status 0 with a null body. -/
structure Response where
  status : Int
  body : Option Json
  latency : Nat

/-- One metric observation or request event, in the order the script emits
them.  All Rate observations of these scripts target the single metric named
errors, and all Counter observations target successful_operations. -/
inductive Obs where
  | request (method : String) (url : String)
  | trend (metric : String) (ms : Nat)
  | rate (metric : String) (v : Nat)
  | counter (metric : String) (v : Nat)
deriving DecidableEq, Repr

def BASE_URL : String := "https://dev.api.smartrent.io.vn"

def urlAuth : String := BASE_URL ++ "/v1/auth"
def urlAuthAdmin : String := BASE_URL ++ "/v1/auth/admin"
def urlListings : String := BASE_URL ++ "/v1/listings?page=1&size=10"
def urlListingsBase : String := BASE_URL ++ "/v1/listings"
def urlSearch : String := BASE_URL ++ "/v1/listings/search"
def urlSaved : String := BASE_URL ++ "/v1/saved-listings"
def urlPush : String := BASE_URL ++ "/v1/pushes/push"
def urlListPage1 : String := BASE_URL ++ "/v1/listings?page=1&size=1"
def urlStatsProv : String := BASE_URL ++ "/v1/listings/stats/provinces"
def urlStatsCat : String := BASE_URL ++ "/v1/listings/stats/categories"
def urlMyListings : String := BASE_URL ++ "/v1/listings?page=1&size=10&mine=true"

/-- The common executed-step shape of most steps: one request, one Trend
duration observation, one errors Rate observation that is 0 exactly when the
conjunction of the checks holds, then a successful_operations increment when
the counter condition holds.  This is the literal statement order
errorRate.add(success ? 0 : 1); if (cond) successfulOperations.add(1). -/
def stepA (method url metric : String) (succ counterCond : Bool) (res : Response) : List Obs :=
  [Obs.request method url, Obs.trend metric res.latency,
   Obs.rate "errors" (if succ then 0 else 1)]
  ++ (if counterCond then [Obs.counter "successful_operations" 1] else [])

/-- A step recording no counter: request, Trend observation, errors Rate
observation (the pattern of smartrent-api-test.js steps). -/
def stepNC (method url metric : String) (succ : Bool) (res : Response) : List Obs :=
  [Obs.request method url, Obs.trend metric res.latency,
   Obs.rate "errors" (if succ then 0 else 1)]

/-- A step with neither duration Trend nor counter: request and errors Rate
observation only (the stats steps of smartrent-api-test.js). -/
def stepNT (method url : String) (succ : Bool) : List Obs :=
  [Obs.request method url, Obs.rate "errors" (if succ then 0 else 1)]

/- ======================================================================
   src/scenarios/user-journey-test.js
   ====================================================================== -/

/-- Conjunction of the two login checks of user-journey-test.js: status 200
and body.data && body.data.accessToken. -/
def ujLoginSuccess (res : Response) : Bool :=
  (res.status == 200) && checkDataField "accessToken" res.body

/-- The login helper of user-journey-test.js: returns the access token value
(null on failure) and the observations it records.  On failure it records
errors 1 and returns null; on success errors 0 then the counter increment. -/
def ujLogin (res : Response) : Json × List Obs :=
  if ujLoginSuccess res then
    (accessTokenOf res.body,
     [Obs.request "POST" urlAuth, Obs.trend "login_duration" res.latency,
      Obs.rate "errors" 0, Obs.counter "successful_operations" 1])
  else
    (Json.null,
     [Obs.request "POST" urlAuth, Obs.trend "login_duration" res.latency,
      Obs.rate "errors" 1])

/-- Checks of step 2 Browse Listings: status 200 and body.data &&
body.data.content. -/
def ujStep2Success (res : Response) : Bool :=
  (res.status == 200) && checkDataField "content" res.body

/-- Step 2 Browse Listings: on success the counter increment, errors 0, and
extraction of the first listing id; on failure errors 1 and no extraction. -/
def ujStep2 (res : Response) : Json × List Obs :=
  if ujStep2Success res then
    (extractContentFirstId res.body,
     [Obs.request "GET" urlListings, Obs.trend "get_listings_duration" res.latency,
      Obs.counter "successful_operations" 1, Obs.rate "errors" 0])
  else
    (Json.null,
     [Obs.request "GET" urlListings, Obs.trend "get_listings_duration" res.latency,
      Obs.rate "errors" 1])

/-- Checks of step 3 View Listing Detail: status 200 and body.data &&
body.data.id. -/
def ujStep3Success (res : Response) : Bool :=
  (res.status == 200) && checkDataField "id" res.body

/-- Step 3 View Listing Detail (executed only under the listingId guard). -/
def ujStep3 (lid : Json) (res : Response) : List Obs :=
  stepA "GET" (urlListingsBase ++ "/" ++ lid.toTemplateString)
    "listing_detail_duration" (ujStep3Success res) (ujStep3Success res) res

/-- Check of step 4 Save Listing: status 200 or 201 or 409. -/
def ujStep4Success (res : Response) : Bool :=
  (res.status == 200) || (res.status == 201) || (res.status == 409)

/-- Step 4 Save Listing (executed only under the listingId guard). -/
def ujStep4 (res : Response) : List Obs :=
  stepA "POST" urlSaved "save_listing_duration" (ujStep4Success res) (ujStep4Success res) res

/-- Checks of step 5 Search by Address: status 200 and body.data !==
undefined. -/
def ujStep5Success (res : Response) : Bool :=
  (res.status == 200) && checkDataDefined res.body

/-- Step 5 Search by Address. -/
def ujStep5 (res : Response) : List Obs :=
  stepA "POST" urlSearch "search_duration" (ujStep5Success res) (ujStep5Success res) res

/-- Steps 6, 7 and 8 (searches by pricing, amenities and combined filters):
single status 200 check. -/
def ujSearchStatusOnly (res : Response) : List Obs :=
  stepA "POST" urlSearch "search_duration" (res.status == 200) (res.status == 200) res

/-- Check of step 9 Create Listing: status 200 or 201. -/
def ujStep9Success (res : Response) : Bool :=
  (res.status == 200) || (res.status == 201)

/-- Step 9 Create Listing: on success the counter increment, errors 0 and the
created id extraction; on failure the script deliberately records errors 0
(creation may fail for quota reasons) and extracts nothing. -/
def ujStep9 (res : Response) : Json × List Obs :=
  if ujStep9Success res then
    (extractDataId res.body,
     [Obs.request "POST" urlListingsBase, Obs.trend "create_listing_duration" res.latency,
      Obs.counter "successful_operations" 1, Obs.rate "errors" 0])
  else
    (Json.null,
     [Obs.request "POST" urlListingsBase, Obs.trend "create_listing_duration" res.latency,
      Obs.rate "errors" 0])

/-- Check of step 10 Push Listing: status 200 or 201 or 400 (400 means no
quota and is accepted by the check). -/
def ujStep10Success (res : Response) : Bool :=
  (res.status == 200) || (res.status == 201) || (res.status == 400)

/-- Counter condition of step 10: the counter increments only on 200 or 201,
not on the check-accepted 400. -/
def ujStep10Counter (res : Response) : Bool :=
  (res.status == 200) || (res.status == 201)

/-- Step 10 Push Listing (executed only under the createdListingId ||
listingId guard). -/
def ujStep10 (res : Response) : List Obs :=
  stepA "POST" urlPush "push_listing_duration" (ujStep10Success res) (ujStep10Counter res) res

/-- The injected request capability of one user-journey iteration: the
response each request of the iteration would receive.  The listing-detail
response may depend on the requested listing id. -/
structure UJEnv where
  login : Response
  listings : Response
  detail : Json → Response
  save : Response
  searchAddr : Response
  searchPrice : Response
  searchAmen : Response
  searchComb : Response
  create : Response
  push : Response

/-- The listingId iteration variable after step 2. -/
def ujListingIdOf (env : UJEnv) : Json := (ujStep2 env.listings).1

/-- The createdListingId iteration variable after step 9. -/
def ujCreatedIdOf (env : UJEnv) : Json := (ujStep9 env.create).1

/-- The push target createdListingId || listingId of step 10. -/
def ujPushTarget (env : UJEnv) : Json := jsOr (ujCreatedIdOf env) (ujListingIdOf env)

/-- The guarded region of steps 3 and 4, entered only when listingId is
truthy; a falsy listingId records nothing here. -/
def ujSteps34 (lid : Json) (env : UJEnv) : List Obs :=
  if lid.truthy then ujStep3 lid (env.detail lid) ++ ujStep4 env.save else []

/-- The guarded step 10 region, entered only when createdListingId ||
listingId is truthy. -/
def ujStep10Block (env : UJEnv) : List Obs :=
  if (ujPushTarget env).truthy then ujStep10 env.push else []

/-- One full iteration of the user-journey default function: login, then an
early return when the token is falsy, else steps 2 through 10 in order with
the guards of steps 3, 4 and 10. -/
def userJourneyIter (env : UJEnv) : List Obs :=
  if (ujLogin env.login).1.truthy then
    (ujLogin env.login).2
    ++ (ujStep2 env.listings).2
    ++ ujSteps34 (ujListingIdOf env) env
    ++ ujStep5 env.searchAddr
    ++ ujSearchStatusOnly env.searchPrice
    ++ ujSearchStatusOnly env.searchAmen
    ++ ujSearchStatusOnly env.searchComb
    ++ (ujStep9 env.create).2
    ++ ujStep10Block env
  else (ujLogin env.login).2

/-- A run of consecutive user-journey iterations; every iteration declares
its token and listing id variables locally and afresh, so the run is the
concatenation of independent iteration traces. -/
def runUserJourney : List UJEnv → List Obs
  | [] => []
  | e :: rest => userJourneyIter e ++ runUserJourney rest

/- ======================================================================
   src/unnamed/part_000 (the admin journey scenario)
   ====================================================================== -/

/-- Conjunction of the two admin login checks: status 200 and body.data &&
body.data.accessToken. -/
def adminLoginSuccess (res : Response) : Bool :=
  (res.status == 200) && checkDataField "accessToken" res.body

/-- The adminLogin helper of the admin journey script. -/
def adminLogin (res : Response) : Json × List Obs :=
  if adminLoginSuccess res then
    (accessTokenOf res.body,
     [Obs.request "POST" urlAuthAdmin, Obs.trend "admin_login_duration" res.latency,
      Obs.rate "errors" 0, Obs.counter "successful_operations" 1])
  else
    (Json.null,
     [Obs.request "POST" urlAuthAdmin, Obs.trend "admin_login_duration" res.latency,
      Obs.rate "errors" 1])

/-- Checks of admin step 2 Filter Pending Listings: status 200 and body.data
!== undefined. -/
def adminStep2Success (res : Response) : Bool :=
  (res.status == 200) && checkDataDefined res.body

/-- Admin step 2 Filter Pending Listings: on success the counter increment,
errors 0, and extraction of the first pending listing id from the data
array. -/
def adminStep2 (res : Response) : Json × List Obs :=
  if adminStep2Success res then
    (extractArrFirst "listingId" res.body,
     [Obs.request "POST" urlSearch, Obs.trend "admin_filter_listings_duration" res.latency,
      Obs.counter "successful_operations" 1, Obs.rate "errors" 0])
  else
    (Json.null,
     [Obs.request "POST" urlSearch, Obs.trend "admin_filter_listings_duration" res.latency,
      Obs.rate "errors" 1])

/-- Admin steps 3, 4 and 5 (filters by approved, rejected, combined): single
status 200 check. -/
def adminFilterStep (res : Response) : List Obs :=
  stepA "POST" urlSearch "admin_filter_listings_duration"
    (res.status == 200) (res.status == 200) res

/-- Lenient check shared by admin steps 6, 7 and 8: status 200 or 403 or
404. -/
def adminLenientSuccess (res : Response) : Bool :=
  (res.status == 200) || (res.status == 403) || (res.status == 404)

/-- Admin step 6 Update Status (executed only under the pendingListingId
guard): the errors observation is always 0, and the counter increments only
on status 200. -/
def adminStep6 (pid : Json) (res : Response) : List Obs :=
  [Obs.request "PUT" (BASE_URL ++ "/v1/admin/listings/" ++ pid.toTemplateString ++ "/status"),
   Obs.trend "admin_update_status_duration" res.latency]
  ++ (if res.status == 200 then
        [Obs.counter "successful_operations" 1, Obs.rate "errors" 0]
      else [Obs.rate "errors" 0])

/-- Admin step 7 Get Listing Reports, always executed after a successful
login, against pendingListingId || 1: the errors observation is always 0, the
counter increments only on status 200, and the report id is extracted only on
status 200. -/
def adminStep7 (target : Json) (res : Response) : Json × List Obs :=
  ((if res.status == 200 then extractArrFirst "id" res.body else Json.null),
   [Obs.request "GET" (BASE_URL ++ "/v1/listings/" ++ target.toTemplateString ++ "/reports"),
    Obs.trend "admin_get_reports_duration" res.latency]
   ++ (if res.status == 200 then
         [Obs.counter "successful_operations" 1, Obs.rate "errors" 0]
       else [Obs.rate "errors" 0]))

/-- Admin step 8 Resolve Report (executed only under the reportId guard): the
counter increments only on status 200, and the errors observation is always
0, recorded after the conditional increment. -/
def adminStep8 (rid : Json) (res : Response) : List Obs :=
  [Obs.request "PUT" (BASE_URL ++ "/v1/admin/reports/" ++ rid.toTemplateString ++ "/resolve"),
   Obs.trend "admin_resolve_report_duration" res.latency]
  ++ (if res.status == 200 then [Obs.counter "successful_operations" 1] else [])
  ++ [Obs.rate "errors" 0]

/-- The injected request capability of one admin-journey iteration.  The
update, reports and resolve responses may depend on the id in the request
URL. -/
structure AdminEnv where
  login : Response
  filterPending : Response
  filterApproved : Response
  filterRejected : Response
  filterCombined : Response
  update : Json → Response
  reports : Json → Response
  resolve : Json → Response

/-- The pendingListingId iteration variable after admin step 2. -/
def adminPendingIdOf (env : AdminEnv) : Json := (adminStep2 env.filterPending).1

/-- The step 7 request target pendingListingId || 1. -/
def adminReportsTarget (env : AdminEnv) : Json := jsOr (adminPendingIdOf env) (Json.num 1)

/-- The reportId iteration variable after admin step 7. -/
def adminReportIdOf (env : AdminEnv) : Json :=
  (adminStep7 (adminReportsTarget env) (env.reports (adminReportsTarget env))).1

/-- The guarded admin step 6 region, entered only when pendingListingId is
truthy. -/
def adminStep6Block (pid : Json) (env : AdminEnv) : List Obs :=
  if pid.truthy then adminStep6 pid (env.update pid) else []

/-- The guarded admin step 8 region, entered only when reportId is truthy. -/
def adminStep8Block (rid : Json) (env : AdminEnv) : List Obs :=
  if rid.truthy then adminStep8 rid (env.resolve rid) else []

/-- One full iteration of the admin-journey default function: admin login,
early return when the token is falsy, else steps 2 through 8 in order with
the guards of steps 6 and 8; step 7 is unguarded. -/
def adminJourneyIter (env : AdminEnv) : List Obs :=
  if (adminLogin env.login).1.truthy then
    (adminLogin env.login).2
    ++ (adminStep2 env.filterPending).2
    ++ adminFilterStep env.filterApproved
    ++ adminFilterStep env.filterRejected
    ++ adminFilterStep env.filterCombined
    ++ adminStep6Block (adminPendingIdOf env) env
    ++ (adminStep7 (adminReportsTarget env) (env.reports (adminReportsTarget env))).2
    ++ adminStep8Block (adminReportIdOf env) env
  else (adminLogin env.login).2

/-- A run of consecutive admin-journey iterations. -/
def runAdminJourney : List AdminEnv → List Obs
  | [] => []
  | e :: rest => adminJourneyIter e ++ runAdminJourney rest

/- ======================================================================
   src/script/smartrent-api-test.js and smartrent-core-api-test.js
   ====================================================================== -/

/-- Conjunction of the two login checks of smartrent-api-test.js (identical
to the user-journey login checks). -/
def apiLoginSuccess (res : Response) : Bool :=
  (res.status == 200) && checkDataField "accessToken" res.body

/-- The login helper of smartrent-api-test.js: this script declares no
successful_operations Counter, so a successful login records only errors 0. -/
def apiLogin (res : Response) : Json × List Obs :=
  if apiLoginSuccess res then
    (accessTokenOf res.body,
     [Obs.request "POST" urlAuth, Obs.trend "login_duration" res.latency,
      Obs.rate "errors" 0])
  else
    (Json.null,
     [Obs.request "POST" urlAuth, Obs.trend "login_duration" res.latency,
      Obs.rate "errors" 1])

/-- The login helper of smartrent-core-api-test.js, identical in observable
behaviour to the smartrent-api-test.js login: no counter, errors 1 and null
on any failing check. -/
def coreLogin (res : Response) : Json × List Obs :=
  if (res.status == 200) && checkDataField "accessToken" res.body then
    (accessTokenOf res.body,
     [Obs.request "POST" urlAuth, Obs.trend "login_duration" res.latency,
      Obs.rate "errors" 0])
  else
    (Json.null,
     [Obs.request "POST" urlAuth, Obs.trend "login_duration" res.latency,
      Obs.rate "errors" 1])

/-- Checks of the public get-listings step of smartrent-api-test.js: status
200, body.data !== undefined, and response time below 1000 ms. -/
def apiListingsSuccess (res : Response) : Bool :=
  (res.status == 200) && checkDataDefined res.body && decide (res.latency < 1000)

/-- Checks of the public search step: status 200, body.data !== undefined,
and response time below 2000 ms. -/
def apiSearchSuccess (res : Response) : Bool :=
  (res.status == 200) && checkDataDefined res.body && decide (res.latency < 2000)

/-- Checks of the listing-detail step: status 200, body.data !== undefined,
and response time below 500 ms. -/
def apiDetailSuccess (res : Response) : Bool :=
  (res.status == 200) && checkDataDefined res.body && decide (res.latency < 500)

/-- Checks of the stats steps: status 200 and response time below 1000 ms. -/
def apiStatsSuccess (res : Response) : Bool :=
  (res.status == 200) && decide (res.latency < 1000)

/-- Checks of the protected my-listings step: status 200 and response time
below 1000 ms. -/
def apiMySuccess (res : Response) : Bool :=
  (res.status == 200) && decide (res.latency < 1000)

/-- Outcome of the listing-detail extraction attempt of smartrent-api-test.js
on the page-size-1 listing response body: the try block can throw (caught,
recorded as errors 1), find no listing (nothing recorded), or find a first
listing id and proceed to the detail request. -/
inductive DetailOutcome where
  | threw
  | skip
  | proceed (lid : Json)

/-- The condition listBody.data && listBody.data.content &&
listBody.data.content.length > 0 followed by listBody.data.content[0].id,
under the enclosing try catch. -/
def apiDetailOutcome : Option Json → DetailOutcome
  | none => .threw
  | some b =>
    match b.get? "data" with
    | none => .threw
    | some d =>
      if d.truthy then
        match d.get? "content" with
        | none => .threw
        | some c =>
          match c with
          | .arr (x :: _) =>
            (match x.get? "id" with
             | none => .threw
             | some i => .proceed i)
          | _ => .skip
      else .skip

/-- The nested listing-detail group of smartrent-api-test.js: first a
page-size-1 listing request; only on its status 200 the body is examined, a
throw records errors 1, and a found id issues the detail request with its
Trend and errors observations. -/
def apiDetailGroup (listRes : Response) (detailOf : Json → Response) : List Obs :=
  [Obs.request "GET" urlListPage1]
  ++ (if listRes.status == 200 then
        match apiDetailOutcome listRes.body with
        | .threw => [Obs.rate "errors" 1]
        | .skip => []
        | .proceed lid =>
          stepNC "GET" (urlListingsBase ++ "/" ++ lid.toTemplateString)
            "listing_detail_duration" (apiDetailSuccess (detailOf lid)) (detailOf lid)
      else [])

/-- The injected request capability of one smartrent-api-test.js iteration. -/
structure ApiEnv where
  login : Response
  listings : Response
  search : Response
  listPage1 : Response
  detail : Json → Response
  statsProv : Response
  statsCat : Response
  myListings : Response

/-- One full iteration of the smartrent-api-test.js default function.  There
is no early return: the public steps run and record observations whether or
not the login step succeeded; only the final my-listings group is guarded by
the token. -/
def apiTestIter (env : ApiEnv) : List Obs :=
  (apiLogin env.login).2
  ++ stepNC "GET" urlListings "get_listings_duration" (apiListingsSuccess env.listings) env.listings
  ++ stepNC "POST" urlSearch "search_duration" (apiSearchSuccess env.search) env.search
  ++ apiDetailGroup env.listPage1 env.detail
  ++ stepNT "POST" urlStatsProv (apiStatsSuccess env.statsProv)
  ++ stepNT "POST" urlStatsCat (apiStatsSuccess env.statsCat)
  ++ (if (apiLogin env.login).1.truthy then
        stepNT "GET" urlMyListings (apiMySuccess env.myListings)
      else [])

/- ======================================================================
   src/script/smartrent-full-api-test.js
   ====================================================================== -/

/-- The check body.data && Array.isArray(body.data) && body.data.length > 0
of the full-api get-listings step, under the try catch wrapper. -/
def checkDataArrNonEmpty : Option Json → Bool
  | none => false
  | some b =>
    match b.get? "data" with
    | none => false
    | some d =>
      d.truthy &&
        (match d with
         | .arr (_ :: _) => true
         | _ => false)

/-- Conjunction of the two login checks of smartrent-full-api-test.js
(identical to the user-journey login checks). -/
def faLoginSuccess (res : Response) : Bool :=
  (res.status == 200) && checkDataField "accessToken" res.body

/-- The login helper of smartrent-full-api-test.js: same observable
behaviour as the user-journey login, including the counter increment. -/
def faLogin (res : Response) : Json × List Obs :=
  if faLoginSuccess res then
    (accessTokenOf res.body,
     [Obs.request "POST" urlAuth, Obs.trend "login_duration" res.latency,
      Obs.rate "errors" 0, Obs.counter "successful_operations" 1])
  else
    (Json.null,
     [Obs.request "POST" urlAuth, Obs.trend "login_duration" res.latency,
      Obs.rate "errors" 1])

/-- Checks of full-api group 2 Get Listings: status 200, data a nonempty
array, and response time below 2000 ms. -/
def faStep2Success (res : Response) : Bool :=
  (res.status == 200) && checkDataArrNonEmpty res.body && decide (res.latency < 2000)

/-- Full-api group 2 Get Listings: on success the counter increment, errors
0, and extraction of body.data[0].listingId; on failure errors 1. -/
def faStep2 (res : Response) : Json × List Obs :=
  if faStep2Success res then
    (extractArrFirst "listingId" res.body,
     [Obs.request "GET" urlListings, Obs.trend "get_listings_duration" res.latency,
      Obs.counter "successful_operations" 1, Obs.rate "errors" 0])
  else
    (Json.null,
     [Obs.request "GET" urlListings, Obs.trend "get_listings_duration" res.latency,
      Obs.rate "errors" 1])

/-- Checks of full-api group 3 Listing Detail: status 200, body.data &&
body.data.listingId, and response time below 500 ms. -/
def faStep3Success (res : Response) : Bool :=
  (res.status == 200) && checkDataField "listingId" res.body && decide (res.latency < 500)

/-- Full-api group 3 Listing Detail (executed only under the listingId
guard). -/
def faStep3 (lid : Json) (res : Response) : List Obs :=
  stepA "GET" (urlListingsBase ++ "/" ++ lid.toTemplateString)
    "listing_detail_duration" (faStep3Success res) (faStep3Success res) res

/-- Checks of full-api group 4 My Listings: status 200, body.data !==
undefined, and response time below 2000 ms. -/
def faStep4Success (res : Response) : Bool :=
  (res.status == 200) && checkDataDefined res.body && decide (res.latency < 2000)

/-- Full-api group 4 My Listings (unguarded). -/
def faStep4 (res : Response) : List Obs :=
  stepA "GET" urlMyListings "my_listings_duration" (faStep4Success res) (faStep4Success res) res

/-- Checks of full-api groups 5 and 6 (stats by province and by category):
status 200, body.data !== undefined, and response time below 1000 ms. -/
def faStatsSuccess (res : Response) : Bool :=
  (res.status == 200) && checkDataDefined res.body && decide (res.latency < 1000)

/-- Full-api group 5 Stats by Province (unguarded). -/
def faStep5 (res : Response) : List Obs :=
  stepA "POST" urlStatsProv "stats_province_duration" (faStatsSuccess res) (faStatsSuccess res) res

/-- Full-api group 6 Stats by Category (unguarded). -/
def faStep6 (res : Response) : List Obs :=
  stepA "POST" urlStatsCat "stats_category_duration" (faStatsSuccess res) (faStatsSuccess res) res

/-- Checks of full-api group 7 Save Listing: status 200 or 201 or 409, and
response time below 1000 ms. -/
def faStep7Success (res : Response) : Bool :=
  ((res.status == 200) || (res.status == 201) || (res.status == 409))
    && decide (res.latency < 1000)

/-- Full-api group 7 Save Listing (executed only under the listingId
guard). -/
def faStep7 (res : Response) : List Obs :=
  stepA "POST" urlSaved "save_listing_duration" (faStep7Success res) (faStep7Success res) res

/-- Check of full-api group 8 Create Listing: status 200, 201, 400 or 403
(400 and 403 are expected quota or validation refusals). -/
def faStep8Success (res : Response) : Bool :=
  (res.status == 200) || (res.status == 201) || (res.status == 400) || (res.status == 403)

/-- Counter condition of full-api group 8: the increment and the created id
extraction happen only on status 200 or 201. -/
def faStep8Counter (res : Response) : Bool :=
  (res.status == 200) || (res.status == 201)

/-- Full-api group 8 Create Listing (unguarded): the errors observation is
always 0, in both branches of the status test. -/
def faStep8 (res : Response) : Json × List Obs :=
  if faStep8Counter res then
    (extractDataId res.body,
     [Obs.request "POST" urlListingsBase, Obs.trend "create_listing_duration" res.latency,
      Obs.counter "successful_operations" 1, Obs.rate "errors" 0])
  else
    (Json.null,
     [Obs.request "POST" urlListingsBase, Obs.trend "create_listing_duration" res.latency,
      Obs.rate "errors" 0])

/-- Check of full-api group 9 Push Listing: status 200, 201, 400 or 403. -/
def faStep9Success (res : Response) : Bool :=
  (res.status == 200) || (res.status == 201) || (res.status == 400) || (res.status == 403)

/-- Counter condition of full-api group 9: only status 200 or 201. -/
def faStep9Counter (res : Response) : Bool :=
  (res.status == 200) || (res.status == 201)

/-- Full-api group 9 Push Listing (executed only under the createdListingId
|| listingId guard): the conditional counter increment precedes the errors
observation here. -/
def faStep9 (res : Response) : List Obs :=
  [Obs.request "POST" urlPush, Obs.trend "push_listing_duration" res.latency]
  ++ (if faStep9Counter res then [Obs.counter "successful_operations" 1] else [])
  ++ [Obs.rate "errors" (if faStep9Success res then 0 else 1)]

/-- The injected request capability of one smartrent-full-api-test.js
iteration. -/
structure FAEnv where
  login : Response
  listings : Response
  detail : Json → Response
  myListings : Response
  statsProv : Response
  statsCat : Response
  save : Response
  create : Response
  push : Response

/-- The listingId iteration variable after full-api group 2. -/
def faListingIdOf (env : FAEnv) : Json := (faStep2 env.listings).1

/-- The createdListingId iteration variable after full-api group 8. -/
def faCreatedIdOf (env : FAEnv) : Json := (faStep8 env.create).1

/-- The push target createdListingId || listingId of full-api group 9. -/
def faPushTarget (env : FAEnv) : Json := jsOr (faCreatedIdOf env) (faListingIdOf env)

/-- The guarded full-api Listing Detail region, entered only when listingId
is truthy. -/
def faStep3Block (lid : Json) (env : FAEnv) : List Obs :=
  if lid.truthy then faStep3 lid (env.detail lid) else []

/-- The guarded full-api Save Listing region, entered only when listingId is
truthy. -/
def faStep7Block (lid : Json) (env : FAEnv) : List Obs :=
  if lid.truthy then faStep7 env.save else []

/-- The guarded full-api Push Listing region, entered only when
createdListingId || listingId is truthy. -/
def faStep9Block (env : FAEnv) : List Obs :=
  if (faPushTarget env).truthy then faStep9 env.push else []

/-- One full iteration of the smartrent-full-api-test.js default function:
login, early return when the token is falsy, else groups 2 through 9 in
order with the guards of groups 3, 7 and 9. -/
def fullApiIter (env : FAEnv) : List Obs :=
  if (faLogin env.login).1.truthy then
    (faLogin env.login).2
    ++ (faStep2 env.listings).2
    ++ faStep3Block (faListingIdOf env) env
    ++ faStep4 env.myListings
    ++ faStep5 env.statsProv
    ++ faStep6 env.statsCat
    ++ faStep7Block (faListingIdOf env) env
    ++ (faStep8 env.create).2
    ++ faStep9Block env
  else (faLogin env.login).2

/- ======================================================================
   Metric snapshots and the textSummary threshold rendering
   ====================================================================== -/

/-- The aggregated values a k6 end-of-run snapshot stores for one metric,
restricted to the fields the textSummary functions read. -/
structure MetricValues where
  avg : Rat
  minv : Rat
  maxv : Rat
  p90 : Rat
  p95 : Rat
  rate : Rat
  count : Rat

/-- A final metrics snapshot: the named metrics present in data.metrics. -/
structure Snapshot where
  metrics : List (String × MetricValues)

/-- Lookup of data.metrics[name]. -/
def Snapshot.find? (s : Snapshot) (k : String) : Option MetricValues :=
  s.metrics.lookup k

/-- The THRESHOLDS section of the user-journey textSummary, as the list of
rendered verdicts (metric label, pass flag).  A metric absent from the
snapshot renders no line at all: the if guard skips it. -/
def ujThresholdLines (d : Snapshot) : List (String × Bool) :=
  (match d.find? "http_req_duration" with
   | some v => [("http_req_duration", decide (v.p95 < 3000))]
   | none => [])
  ++ (match d.find? "http_req_failed" with
      | some v => [("http_req_failed", decide (v.rate * 100 < 10))]
      | none => [])

/-- The THRESHOLDS section of the admin-journey textSummary of
src/unnamed/part_000, identical in structure to the user-journey one. -/
def adminThresholdLines (d : Snapshot) : List (String × Bool) :=
  (match d.find? "http_req_duration" with
   | some v => [("http_req_duration", decide (v.p95 < 3000))]
   | none => [])
  ++ (match d.find? "http_req_failed" with
      | some v => [("http_req_failed", decide (v.rate * 100 < 10))]
      | none => [])

/-- The metric key and display name table of the user-journey summary. -/
def ujStepMetricKeys : List (String × String) :=
  [("login_duration", "1. Login"),
   ("get_listings_duration", "2. Get Listings"),
   ("listing_detail_duration", "3. Listing Detail"),
   ("save_listing_duration", "4. Save Listing"),
   ("search_duration", "5-8. Search/Filter"),
   ("create_listing_duration", "9. Create Listing"),
   ("push_listing_duration", "10. Push Listing")]

/-- The API-performance section of the user-journey textSummary: the display
names of the metrics present in the snapshot, in table order. -/
def ujStepLines (d : Snapshot) : List String :=
  ujStepMetricKeys.filterMap fun kn =>
    match d.find? kn.1 with
    | some _ => some kn.2
    | none => none

/-- The THRESHOLDS section of the smartrent-full-api-test.js textSummary:
p95 of http_req_duration against 2000, http_req_failed rate against 5
percent, and the errors rate against 5 percent, each rendered only when the
metric is present. -/
def fullApiThresholdLines (d : Snapshot) : List (String × Bool) :=
  (match d.find? "http_req_duration" with
   | some v => [("http_req_duration", decide (v.p95 < 2000))]
   | none => [])
  ++ (match d.find? "http_req_failed" with
      | some v => [("http_req_failed", decide (v.rate * 100 < 5))]
      | none => [])
  ++ (match d.find? "errors" with
      | some v => [("errors", decide (v.rate * 100 < 5))]
      | none => [])

/-- The metric key and p95 target table of the smartrent-full-api-test.js
summary. -/
def fullApiMetricTargets : List (String × Rat) :=
  [("login_duration", 2000),
   ("get_listings_duration", 2000),
   ("listing_detail_duration", 1000),
   ("my_listings_duration", 2000),
   ("stats_province_duration", 1000),
   ("stats_category_duration", 1000),
   ("save_listing_duration", 1000),
   ("create_listing_duration", 3000),
   ("push_listing_duration", 1000)]

/-- The API-performance section of the smartrent-full-api-test.js
textSummary: per present metric, its key and whether its p95 meets the
target. -/
def fullApiMetricLines (d : Snapshot) : List (String × Bool) :=
  fullApiMetricTargets.filterMap fun kt =>
    match d.find? kt.1 with
    | some v => some (kt.1, decide (v.p95 < kt.2))
    | none => none

/-- Whether the rendered threshold lines contain a verdict for a metric. -/
def hasVerdictFor (name : String) (lines : List (String × Bool)) : Bool :=
  lines.any fun p => p.1 == name

/- ======================================================================
   Measurement functions over observation traces
   ====================================================================== -/

/-- Number of Trend observations recorded into the metric named m. -/
def countTrend (m : String) : List Obs → Nat
  | [] => 0
  | .trend n _ :: tl => (if n = m then 1 else 0) + countTrend m tl
  | _ :: tl => countTrend m tl

/-- The values of the Rate observations of a trace, in order.  Every Rate
observation of these scripts targets the single metric named errors. -/
def errVals : List Obs → List Nat
  | [] => []
  | .rate _ v :: tl => v :: errVals tl
  | _ :: tl => errVals tl

/-- Number of Rate observations carrying the value v. -/
def countRateVal (v : Nat) : List Obs → Nat
  | [] => 0
  | .rate _ w :: tl => (if w = v then 1 else 0) + countRateVal v tl
  | _ :: tl => countRateVal v tl

/-- Total amount added to the successful_operations Counter.  Every Counter
observation of these scripts targets that single metric. -/
def succOps : List Obs → Nat
  | [] => 0
  | .counter _ v :: tl => v + succOps tl
  | _ :: tl => succOps tl

/-- Whether, in a given iteration, the Browse Listings step executed and all
its checks passed: the login token was truthy and the step 2 checks held. -/
def ujListPageSuccess (env : UJEnv) : Bool :=
  (ujLogin env.login).1.truthy && ujStep2Success env.listings

/-- Whether, in a given iteration, the View Listing Detail step executed: the
login token was truthy and the extracted listingId was truthy. -/
def ujDetailExec (env : UJEnv) : Bool :=
  (ujLogin env.login).1.truthy && (ujListingIdOf env).truthy

/- ======================================================================
   Concrete inputs used by counterexamples and witnesses
   ====================================================================== -/

/-- A plainly failing response: status 500 with an unparseable body. -/
def rFail : Response := ⟨500, none, 5⟩

/-- A successful login response carrying an access token. -/
def rLoginOk : Response :=
  ⟨200, some (Json.obj [("data", Json.obj [("accessToken", Json.str "tok")])]), 3⟩

/-- A successful listings response whose content array is empty: the step 2
checks pass (data and content are truthy) but no listing id exists. -/
def rEmptyContent : Response :=
  ⟨200, some (Json.obj [("data", Json.obj [("content", Json.arr [])])]), 4⟩

/-- A push response with status 400 (no quota): accepted by the step 10
check, but the counter condition does not hold. -/
def rPush400 : Response := ⟨400, some Json.null, 2⟩

/-- A transport failure as k6 surfaces it: status 0 and a null body. -/
def rTransport : Response := ⟨0, some Json.null, 1⟩

/-- A create-listing response with status 500 and unparseable body: every
check of step 9 fails on it. -/
def rCreate500 : Response := ⟨500, none, 4⟩

/-- A user-journey iteration environment in which every response fails. -/
def cEnvFailU : UJEnv :=
  ⟨rFail, rFail, fun _ => rFail, rFail, rFail, rFail, rFail, rFail, rFail, rFail⟩

/-- An admin-journey iteration environment in which every response fails. -/
def cEnvFailA : AdminEnv :=
  ⟨rFail, rFail, rFail, rFail, rFail, fun _ => rFail, fun _ => rFail, fun _ => rFail⟩

/-- A smartrent-api-test.js environment with a failing login and a listings
response: the public steps still run after the failed login. -/
def cEnvApi : ApiEnv :=
  ⟨rFail, ⟨200, some Json.null, 3⟩, rFail, rFail, fun _ => rFail, rFail, rFail, rFail⟩

/-- A user-journey environment where login succeeds and Browse Listings
succeeds with an empty content array: ListPage succeeds, Detail never runs. -/
def cEnvC4 : UJEnv :=
  ⟨rLoginOk, rEmptyContent, fun _ => rFail, rFail, rFail, rFail, rFail, rFail, rFail, rFail⟩

/-- An admin-journey environment where login succeeds but the pending filter
fails, so no pending listing id is extracted. -/
def cEnvC10 : AdminEnv :=
  ⟨rLoginOk, rFail, rFail, rFail, rFail, fun _ => rFail, fun _ => rFail, fun _ => rFail⟩

/-- A full-api iteration environment in which every response fails, so no
listing id and no created id are extracted. -/
def cEnvFailF : FAEnv :=
  ⟨rFail, rFail, fun _ => rFail, rFail, rFail, rFail, rFail, rFail, rFail⟩

/-- Sample aggregated metric values for a snapshot. -/
def sampleValues : MetricValues := ⟨100, 1, 900, 700, 800, (1 : Rat) / 100, 50⟩

/-- A sample snapshot holding one metric. -/
def sampleSnap : Snapshot := ⟨[("http_req_duration", sampleValues)]⟩

/- ======================================================================
   Helper lemmas
   ====================================================================== -/

theorem countTrend_append (m : String) (a b : List Obs) :
    countTrend m (a ++ b) = countTrend m a + countTrend m b := by
  induction a with
  | nil => simp [countTrend]
  | cons x tl ih => cases x <;> simp [countTrend, ih] <;> omega

theorem countRateVal_append (v : Nat) (a b : List Obs) :
    countRateVal v (a ++ b) = countRateVal v a + countRateVal v b := by
  induction a with
  | nil => simp [countRateVal]
  | cons x tl ih => cases x <;> simp [countRateVal, ih] <;> omega

theorem succOps_append (a b : List Obs) :
    succOps (a ++ b) = succOps a + succOps b := by
  induction a with
  | nil => simp [succOps]
  | cons x tl ih => cases x <;> simp [succOps, ih] <;> omega

theorem countTrend_stepA (t m u met : String) (s c : Bool) (r : Response) :
    countTrend t (stepA m u met s c r) = if met = t then 1 else 0 := by
  cases s <;> cases c <;> simp [stepA, countTrend]

theorem countTrend_ujLogin (t : String) (r : Response) :
    countTrend t (ujLogin r).2 = if "login_duration" = t then 1 else 0 := by
  by_cases h : ujLoginSuccess r <;> simp [ujLogin, h, countTrend]

theorem countTrend_ujStep2 (t : String) (r : Response) :
    countTrend t (ujStep2 r).2 = if "get_listings_duration" = t then 1 else 0 := by
  by_cases h : ujStep2Success r <;> simp [ujStep2, h, countTrend]

theorem countTrend_ujStep9 (t : String) (r : Response) :
    countTrend t (ujStep9 r).2 = if "create_listing_duration" = t then 1 else 0 := by
  by_cases h : ujStep9Success r <;> simp [ujStep9, h, countTrend]

theorem countTrend_adminLogin (t : String) (r : Response) :
    countTrend t (adminLogin r).2 = if "admin_login_duration" = t then 1 else 0 := by
  by_cases h : adminLoginSuccess r <;> simp [adminLogin, h, countTrend]

theorem countTrend_adminStep2 (t : String) (r : Response) :
    countTrend t (adminStep2 r).2 = if "admin_filter_listings_duration" = t then 1 else 0 := by
  by_cases h : adminStep2Success r <;> simp [adminStep2, h, countTrend]

theorem countTrend_adminStep6 (t : String) (pid : Json) (r : Response) :
    countTrend t (adminStep6 pid r) = if "admin_update_status_duration" = t then 1 else 0 := by
  cases h : (r.status == 200) <;> simp [adminStep6, h, countTrend]

theorem countTrend_adminStep7 (t : String) (tgt : Json) (r : Response) :
    countTrend t (adminStep7 tgt r).2 = if "admin_get_reports_duration" = t then 1 else 0 := by
  cases h : (r.status == 200) <;> simp [adminStep7, h, countTrend]

theorem countTrend_adminStep8 (t : String) (rid : Json) (r : Response) :
    countTrend t (adminStep8 rid r) = if "admin_resolve_report_duration" = t then 1 else 0 := by
  cases h : (r.status == 200) <;> simp [adminStep8, h, countTrend]

theorem countTrend_faLogin (t : String) (r : Response) :
    countTrend t (faLogin r).2 = if "login_duration" = t then 1 else 0 := by
  by_cases h : faLoginSuccess r <;> simp [faLogin, h, countTrend]

theorem countTrend_faStep2 (t : String) (r : Response) :
    countTrend t (faStep2 r).2 = if "get_listings_duration" = t then 1 else 0 := by
  by_cases h : faStep2Success r <;> simp [faStep2, h, countTrend]

theorem countTrend_faStep8 (t : String) (r : Response) :
    countTrend t (faStep8 r).2 = if "create_listing_duration" = t then 1 else 0 := by
  by_cases h : faStep8Counter r <;> simp [faStep8, h, countTrend]

theorem countTrend_faStep9 (t : String) (r : Response) :
    countTrend t (faStep9 r) = if "push_listing_duration" = t then 1 else 0 := by
  cases hc : faStep9Counter r <;> cases hs : faStep9Success r <;>
    simp [faStep9, hc, hs, countTrend]

theorem countCreate_faIter (env : FAEnv) :
    countTrend "create_listing_duration" (fullApiIter env) =
      if (faLogin env.login).1.truthy then 1 else 0 := by
  by_cases hT : (faLogin env.login).1.truthy <;>
  by_cases hL : (faListingIdOf env).truthy <;>
  by_cases hP : (faPushTarget env).truthy <;>
    simp +decide [fullApiIter, faStep3Block, faStep7Block, faStep9Block, hT, hL, hP,
      countTrend_append, countTrend_faLogin, countTrend_faStep2, countTrend_faStep8,
      countTrend_faStep9, faStep3, faStep4, faStep5, faStep6, faStep7, countTrend_stepA]

theorem dataField_truthy_of_check (k : String) (b? : Option Json)
    (h : checkDataField k b? = true) : (dataField k b?).truthy = true := by
  cases b? with
  | none => simp [checkDataField] at h
  | some b =>
    simp only [checkDataField] at h
    cases hd : b.get? "data" with
    | none => rw [hd] at h; simp at h
    | some d =>
      rw [hd] at h
      simp only [Bool.and_eq_true] at h
      cases hv : d.get? k with
      | none => rw [hv] at h; simp at h
      | some v =>
        rw [hv] at h
        simp only [dataField, hd, hv]
        exact h.2

theorem ujTokenTruthy (r : Response) (h : ujLoginSuccess r = true) :
    (ujLogin r).1.truthy = true := by
  have h2 : checkDataField "accessToken" r.body = true := by
    have h3 := h
    simp only [ujLoginSuccess, Bool.and_eq_true] at h3
    exact h3.2
  simp [ujLogin, h, accessTokenOf]
  exact dataField_truthy_of_check "accessToken" r.body h2

theorem adminTokenTruthy (r : Response) (h : adminLoginSuccess r = true) :
    (adminLogin r).1.truthy = true := by
  have h2 : checkDataField "accessToken" r.body = true := by
    have h3 := h
    simp only [adminLoginSuccess, Bool.and_eq_true] at h3
    exact h3.2
  simp [adminLogin, h, accessTokenOf]
  exact dataField_truthy_of_check "accessToken" r.body h2

theorem ujIterLoginFail (env : UJEnv) (h : ujLoginSuccess env.login = false) :
    userJourneyIter env =
      [Obs.request "POST" urlAuth, Obs.trend "login_duration" env.login.latency,
       Obs.rate "errors" 1] := by
  simp [userJourneyIter, ujLogin, h, Json.truthy]

theorem adminIterLoginFail (env : AdminEnv) (h : adminLoginSuccess env.login = false) :
    adminJourneyIter env =
      [Obs.request "POST" urlAuthAdmin, Obs.trend "admin_login_duration" env.login.latency,
       Obs.rate "errors" 1] := by
  simp [adminJourneyIter, adminLogin, h, Json.truthy]

theorem runAllFailCounts (envs : List UJEnv)
    (hAll : ∀ e ∈ envs, ujLoginSuccess e.login = false) :
    countRateVal 0 (runUserJourney envs) = 0
    ∧ countRateVal 1 (runUserJourney envs) = envs.length
    ∧ countTrend "get_listings_duration" (runUserJourney envs) = 0 := by
  induction envs with
  | nil => exact ⟨rfl, rfl, rfl⟩
  | cons e tl ih =>
    have he : ujLoginSuccess e.login = false := hAll e (List.mem_cons_self e tl)
    have ihr := ih (fun x hx => hAll x (List.mem_cons_of_mem e hx))
    refine ⟨?_, ?_, ?_⟩ <;>
      simp [runUserJourney, countRateVal_append, countTrend_append,
        ujIterLoginFail e he, countRateVal, countTrend,
        ihr.1, ihr.2.1, ihr.2.2] <;> omega

theorem countCreate_iter (env : UJEnv) :
    countTrend "create_listing_duration" (userJourneyIter env) =
      if (ujLogin env.login).1.truthy then 1 else 0 := by
  by_cases hT : (ujLogin env.login).1.truthy <;>
  by_cases hL : (ujListingIdOf env).truthy <;>
  by_cases hP : (ujPushTarget env).truthy <;>
    simp +decide [userJourneyIter, ujSteps34, ujStep10Block, hT, hL, hP,
      countTrend_append, countTrend_ujLogin, countTrend_ujStep2, countTrend_ujStep9,
      ujStep3, ujStep4, ujStep5, ujSearchStatusOnly, ujStep10, countTrend_stepA]

theorem countDetail_iter (env : UJEnv) :
    countTrend "listing_detail_duration" (userJourneyIter env) =
      if ujDetailExec env then 1 else 0 := by
  by_cases hT : (ujLogin env.login).1.truthy <;>
  by_cases hL : (ujListingIdOf env).truthy <;>
  by_cases hP : (ujPushTarget env).truthy <;>
    simp +decide [userJourneyIter, ujSteps34, ujStep10Block, hT, hL, hP,
      countTrend_append, countTrend_ujLogin, countTrend_ujStep2, countTrend_ujStep9,
      ujStep3, ujStep4, ujStep5, ujSearchStatusOnly, ujStep10, countTrend_stepA,
      ujDetailExec]

theorem countReports_iter (env : AdminEnv) :
    countTrend "admin_get_reports_duration" (adminJourneyIter env) =
      if (adminLogin env.login).1.truthy then 1 else 0 := by
  by_cases hT : (adminLogin env.login).1.truthy <;>
  by_cases hp : (adminPendingIdOf env).truthy <;>
  by_cases hr : (adminReportIdOf env).truthy <;>
    simp +decide [adminJourneyIter, adminStep6Block, adminStep8Block, hT, hp, hr,
      countTrend_append, countTrend_adminLogin, countTrend_adminStep2,
      countTrend_adminStep6, countTrend_adminStep7, countTrend_adminStep8,
      adminFilterStep, countTrend_stepA]

theorem ujDetailExec_imp (env : UJEnv) (h : ujDetailExec env = true) :
    ujListPageSuccess env = true := by
  simp only [ujDetailExec, Bool.and_eq_true] at h
  by_cases h2 : ujStep2Success env.listings
  · simp [ujListPageSuccess, h.1, h2]
  · exfalso
    have : (ujListingIdOf env) = Json.null := by
      simp [ujListingIdOf, ujStep2, h2]
    rw [this] at h
    simp [Json.truthy] at h

/- ======================================================================
   Claim theorems
   ====================================================================== -/

/-- C1, counterexample.  The claim states that a login-failing iteration
records zero observations for any step after Login, but in
smartrent-api-test.js the default function has no early return: here, at a
concrete environment whose login response has status 500, the login checks
fail and yet the public get-listings step still records one observation into
its duration Trend metric. -/
theorem c1_counterexample :
    apiLoginSuccess cEnvApi.login = false
    ∧ countTrend "get_listings_duration" (apiTestIter cEnvApi) = 1 := by
  constructor <;> decide

/-- C1, amended.  In the user-journey and admin-journey scripts a
login-failing iteration records exactly the Login observations (request,
duration Trend, errors Rate value 1) and nothing for any later step, and the
iteration still completes (the iteration function is total).  Over a run in
which Login fails for every iteration, no success (value 0) observation is
ever recorded into the errors Rate metric, so the success rate is 0.0 (the
errors Rate itself, which records 1 for failure, ends at 1.0), and no later
step metric receives any observation.  In smartrent-api-test.js, by
contrast, the public steps still run after a failed Login. -/
theorem c1_amended (envU : UJEnv) (envA : AdminEnv) (envs : List UJEnv)
    (hU : ujLoginSuccess envU.login = false)
    (hA : adminLoginSuccess envA.login = false)
    (hAll : ∀ e ∈ envs, ujLoginSuccess e.login = false) :
    userJourneyIter envU =
      [Obs.request "POST" urlAuth, Obs.trend "login_duration" envU.login.latency,
       Obs.rate "errors" 1]
    ∧ adminJourneyIter envA =
      [Obs.request "POST" urlAuthAdmin, Obs.trend "admin_login_duration" envA.login.latency,
       Obs.rate "errors" 1]
    ∧ countRateVal 0 (runUserJourney envs) = 0
    ∧ countRateVal 1 (runUserJourney envs) = envs.length
    ∧ countTrend "get_listings_duration" (runUserJourney envs) = 0 :=
  ⟨ujIterLoginFail envU hU, adminIterLoginFail envA hA,
   (runAllFailCounts envs hAll).1, (runAllFailCounts envs hAll).2.1,
   (runAllFailCounts envs hAll).2.2⟩

/-- C1, witness: the amended theorem applied to a concrete all-failing
environment. -/
theorem c1_amended_witness :
    userJourneyIter cEnvFailU =
      [Obs.request "POST" urlAuth, Obs.trend "login_duration" cEnvFailU.login.latency,
       Obs.rate "errors" 1] :=
  (c1_amended cEnvFailU cEnvFailA [cEnvFailU] (by decide) (by decide)
    (by intro e he; rw [List.mem_singleton] at he; subst he; decide)).1

/-- C2, counterexample.  The claim states that a 0 (success) observation is
recorded into the errors Rate metric only when every check of the step
passed.  At a create-listing response with status 500 and unparseable body,
the step 9 check fails, yet the step records the errors observation 0: the
script deliberately does not count a failed creation as an error. -/
theorem c2_counterexample :
    ujStep9Success rCreate500 = false
    ∧ errVals (ujStep9 rCreate500).2 = [0] := by
  constructor <;> decide

/-- C2, amended.  Every executed step records exactly one observation into
the errors Rate metric.  For every step except user-journey step 9 (Create
Listing) and admin steps 6, 7 and 8 (Update Status, Get Reports, Resolve
Report), that observation is 1 exactly when the conjunction of the declared
checks of the step is false; the four excepted steps always record 0, even
when their checks fail. -/
theorem c2_amended (m u met : String) (s c : Bool) (lid pid rid tgt : Json) (r : Response) :
    errVals (stepA m u met s c r) = [if s then 0 else 1]
    ∧ errVals (ujLogin r).2 = [if ujLoginSuccess r then 0 else 1]
    ∧ errVals (ujStep2 r).2 = [if ujStep2Success r then 0 else 1]
    ∧ errVals (ujStep3 lid r) = [if ujStep3Success r then 0 else 1]
    ∧ errVals (ujStep4 r) = [if ujStep4Success r then 0 else 1]
    ∧ errVals (ujStep5 r) = [if ujStep5Success r then 0 else 1]
    ∧ errVals (ujSearchStatusOnly r) = [if r.status == 200 then 0 else 1]
    ∧ errVals (ujStep10 r) = [if ujStep10Success r then 0 else 1]
    ∧ errVals (adminLogin r).2 = [if adminLoginSuccess r then 0 else 1]
    ∧ errVals (adminStep2 r).2 = [if adminStep2Success r then 0 else 1]
    ∧ errVals (adminFilterStep r) = [if r.status == 200 then 0 else 1]
    ∧ errVals (ujStep9 r).2 = [0]
    ∧ errVals (adminStep6 pid r) = [0]
    ∧ errVals (adminStep7 tgt r).2 = [0]
    ∧ errVals (adminStep8 rid r) = [0] := by
  refine ⟨?_, ?_, ?_, ?_, ?_, ?_, ?_, ?_, ?_, ?_, ?_, ?_, ?_, ?_, ?_⟩
  · cases s <;> cases c <;> simp [stepA, errVals]
  · by_cases h : ujLoginSuccess r <;> simp [ujLogin, h, errVals]
  · by_cases h : ujStep2Success r <;> simp [ujStep2, h, errVals]
  · by_cases h : ujStep3Success r <;> simp [ujStep3, stepA, h, errVals]
  · by_cases h : ujStep4Success r <;> simp [ujStep4, stepA, h, errVals]
  · by_cases h : ujStep5Success r <;> simp [ujStep5, stepA, h, errVals]
  · cases h : (r.status == 200) <;> simp [ujSearchStatusOnly, stepA, h, errVals]
  · cases h : ujStep10Success r <;> cases hc : ujStep10Counter r <;>
      simp [ujStep10, stepA, h, hc, errVals]
  · by_cases h : adminLoginSuccess r <;> simp [adminLogin, h, errVals]
  · by_cases h : adminStep2Success r <;> simp [adminStep2, h, errVals]
  · cases h : (r.status == 200) <;> simp [adminFilterStep, stepA, h, errVals]
  · by_cases h : ujStep9Success r <;> simp [ujStep9, h, errVals]
  · cases h : (r.status == 200) <;> simp [adminStep6, h, errVals]
  · cases h : (r.status == 200) <;> simp [adminStep7, h, errVals]
  · cases h : (r.status == 200) <;> simp [adminStep8, h, errVals]

/-- C3.  A step whose guard over the iteration state evaluates false (the
steps conditioned on a previously extracted listing id, push target, pending
listing id or report id, in the user-journey, admin-journey and full-api
scripts) records nothing: its guarded region contributes no observation to
its duration Trend metric nor to the errors Rate metric, and the iteration
still completes and runs the remaining unguarded steps, as the unconditional
create-listing and get-reports Trend counts show. -/
theorem c3_guard_semantics (envU : UJEnv) (envA : AdminEnv) (envF : FAEnv)
    (h1 : (ujListingIdOf envU).truthy = false)
    (h2 : (ujPushTarget envU).truthy = false)
    (h3 : (adminPendingIdOf envA).truthy = false)
    (h4 : (adminReportIdOf envA).truthy = false)
    (h5 : (faListingIdOf envF).truthy = false)
    (h6 : (faPushTarget envF).truthy = false) :
    ujSteps34 (ujListingIdOf envU) envU = []
    ∧ ujStep10Block envU = []
    ∧ adminStep6Block (adminPendingIdOf envA) envA = []
    ∧ adminStep8Block (adminReportIdOf envA) envA = []
    ∧ faStep3Block (faListingIdOf envF) envF = []
    ∧ faStep7Block (faListingIdOf envF) envF = []
    ∧ faStep9Block envF = []
    ∧ countTrend "create_listing_duration" (userJourneyIter envU) =
        (if (ujLogin envU.login).1.truthy then 1 else 0)
    ∧ countTrend "admin_get_reports_duration" (adminJourneyIter envA) =
        (if (adminLogin envA.login).1.truthy then 1 else 0)
    ∧ countTrend "create_listing_duration" (fullApiIter envF) =
        (if (faLogin envF.login).1.truthy then 1 else 0) := by
  refine ⟨?_, ?_, ?_, ?_, ?_, ?_, ?_,
    countCreate_iter envU, countReports_iter envA, countCreate_faIter envF⟩
  · simp [ujSteps34, h1]
  · simp [ujStep10Block, h2]
  · simp [adminStep6Block, h3]
  · simp [adminStep8Block, h4]
  · simp [faStep3Block, h5]
  · simp [faStep7Block, h5]
  · simp [faStep9Block, h6]

/-- C3, witness: the guard-skip theorem applied to concrete environments in
which every guard value is falsy. -/
theorem c3_witness :
    ujSteps34 (ujListingIdOf cEnvC4) cEnvC4 = [] :=
  (c3_guard_semantics cEnvC4 cEnvFailA cEnvFailF (by decide) (by decide) (by decide)
    (by decide) (by decide) (by decide)).1

/-- C4, counterexample.  The claim states that the Detail observation count
equals the ListPage success count exactly.  In a one-iteration run whose
Browse Listings response is status 200 with an empty content array, the
ListPage checks pass (success count 1) but no listing id is extracted, so
the Detail step is skipped and its metric receives zero observations. -/
theorem c4_counterexample :
    List.countP (fun e => ujListPageSuccess e) [cEnvC4] = 1
    ∧ countTrend "listing_detail_duration" (runUserJourney [cEnvC4]) = 0 := by
  constructor <;> decide

/-- C4, amended.  Over any run of user-journey iterations, the number of
observations in the Detail duration Trend metric equals exactly the number
of iterations in which the Detail guard held (login token truthy and a
truthy listing id extracted by ListPage), and this is at most the number of
iterations in which ListPage succeeded, since a truthy listing id is only
produced on ListPage success; equality can fail when a successful ListPage
response carries no usable listing id. -/
theorem c4_amended (envs : List UJEnv) :
    countTrend "listing_detail_duration" (runUserJourney envs)
      = List.countP (fun e => ujDetailExec e) envs
    ∧ List.countP (fun e => ujDetailExec e) envs
      ≤ List.countP (fun e => ujListPageSuccess e) envs := by
  induction envs with
  | nil => exact ⟨rfl, Nat.le_refl 0⟩
  | cons e tl ih =>
    constructor
    · simp only [runUserJourney, countTrend_append, countDetail_iter, List.countP_cons, ih.1]
      omega
    · simp only [List.countP_cons]
      have h2 := ih.2
      by_cases hd : ujDetailExec e
      · have hl := ujDetailExec_imp e hd
        simp only [hd, hl, if_true]
        omega
      · simp only [hd, if_false]
        by_cases hl : ujListPageSuccess e <;> simp [hl] <;> omega

/-- C5, counterexample.  The claim states that every fully succeeding step
increments the successful_operations counter by exactly one.  At a push
response with status 400, the single check of step 10 passes (400 is
accepted as no-quota), so the step fully succeeds, yet the counter is not
incremented: the increment is conditioned on status 200 or 201. -/
theorem c5_counterexample :
    ujStep10Success rPush400 = true
    ∧ succOps (ujStep10 rPush400) = 0 := by
  constructor <;> decide

/-- C5, amended.  The successful_operations counter is incremented only by
steps whose checks all passed, and by at most one per executed step.  Most
steps increment it exactly once when fully succeeding; but user-journey step
10 increments only on status 200 or 201 (not on the check-accepted 400),
admin steps 6, 7 and 8 increment only on status 200 (not on the
check-accepted 403 or 404), the full-api Create Listing and Push Listing
steps increment only on status 200 or 201 (not on the check-accepted 400 or
403), and smartrent-api-test.js and smartrent-core-api-test.js declare no
such counter at all, so their steps never increment it. -/
theorem c5_amended (lid pid rid tgt : Json) (r : Response) :
    succOps (ujLogin r).2 = (if ujLoginSuccess r then 1 else 0)
    ∧ succOps (ujStep2 r).2 = (if ujStep2Success r then 1 else 0)
    ∧ succOps (ujStep3 lid r) = (if ujStep3Success r then 1 else 0)
    ∧ succOps (ujStep4 r) = (if ujStep4Success r then 1 else 0)
    ∧ succOps (ujStep5 r) = (if ujStep5Success r then 1 else 0)
    ∧ succOps (ujSearchStatusOnly r) = (if r.status == 200 then 1 else 0)
    ∧ succOps (ujStep9 r).2 = (if ujStep9Success r then 1 else 0)
    ∧ succOps (ujStep10 r) = (if ujStep10Counter r then 1 else 0)
    ∧ (ujStep10Counter r = true → ujStep10Success r = true)
    ∧ succOps (adminLogin r).2 = (if adminLoginSuccess r then 1 else 0)
    ∧ succOps (adminStep2 r).2 = (if adminStep2Success r then 1 else 0)
    ∧ succOps (adminFilterStep r) = (if r.status == 200 then 1 else 0)
    ∧ succOps (adminStep6 pid r) = (if r.status == 200 then 1 else 0)
    ∧ succOps (adminStep7 tgt r).2 = (if r.status == 200 then 1 else 0)
    ∧ succOps (adminStep8 rid r) = (if r.status == 200 then 1 else 0)
    ∧ ((r.status == 200) = true → adminLenientSuccess r = true)
    ∧ succOps (apiLogin r).2 = 0
    ∧ succOps (coreLogin r).2 = 0
    ∧ succOps (faLogin r).2 = (if faLoginSuccess r then 1 else 0)
    ∧ succOps (faStep2 r).2 = (if faStep2Success r then 1 else 0)
    ∧ succOps (faStep3 lid r) = (if faStep3Success r then 1 else 0)
    ∧ succOps (faStep4 r) = (if faStep4Success r then 1 else 0)
    ∧ succOps (faStep5 r) = (if faStatsSuccess r then 1 else 0)
    ∧ succOps (faStep6 r) = (if faStatsSuccess r then 1 else 0)
    ∧ succOps (faStep7 r) = (if faStep7Success r then 1 else 0)
    ∧ succOps (faStep8 r).2 = (if faStep8Counter r then 1 else 0)
    ∧ (faStep8Counter r = true → faStep8Success r = true)
    ∧ succOps (faStep9 r) = (if faStep9Counter r then 1 else 0)
    ∧ (faStep9Counter r = true → faStep9Success r = true) := by
  refine ⟨?_, ?_, ?_, ?_, ?_, ?_, ?_, ?_, ?_, ?_, ?_, ?_, ?_, ?_, ?_, ?_, ?_, ?_,
    ?_, ?_, ?_, ?_, ?_, ?_, ?_, ?_, ?_, ?_, ?_⟩
  · by_cases h : ujLoginSuccess r <;> simp [ujLogin, h, succOps]
  · by_cases h : ujStep2Success r <;> simp [ujStep2, h, succOps]
  · by_cases h : ujStep3Success r <;> simp [ujStep3, stepA, h, succOps]
  · by_cases h : ujStep4Success r <;> simp [ujStep4, stepA, h, succOps]
  · by_cases h : ujStep5Success r <;> simp [ujStep5, stepA, h, succOps]
  · cases h : (r.status == 200) <;> simp [ujSearchStatusOnly, stepA, h, succOps]
  · by_cases h : ujStep9Success r <;> simp [ujStep9, h, succOps]
  · cases h : ujStep10Success r <;> cases hc : ujStep10Counter r <;>
      simp [ujStep10, stepA, h, hc, succOps]
  · intro h
    simp only [ujStep10Counter, Bool.or_eq_true] at h
    simp only [ujStep10Success, Bool.or_eq_true]
    tauto
  · by_cases h : adminLoginSuccess r <;> simp [adminLogin, h, succOps]
  · by_cases h : adminStep2Success r <;> simp [adminStep2, h, succOps]
  · cases h : (r.status == 200) <;> simp [adminFilterStep, stepA, h, succOps]
  · cases h : (r.status == 200) <;> simp [adminStep6, h, succOps]
  · cases h : (r.status == 200) <;> simp [adminStep7, h, succOps]
  · cases h : (r.status == 200) <;> simp [adminStep8, h, succOps]
  · intro h
    simp [adminLenientSuccess, h]
  · by_cases h : apiLoginSuccess r <;> simp [apiLogin, h, succOps]
  · by_cases h : (r.status == 200) && checkDataField "accessToken" r.body <;>
      simp [coreLogin, h, succOps]
  · by_cases h : faLoginSuccess r <;> simp [faLogin, h, succOps]
  · by_cases h : faStep2Success r <;> simp [faStep2, h, succOps]
  · by_cases h : faStep3Success r <;> simp [faStep3, stepA, h, succOps]
  · by_cases h : faStep4Success r <;> simp [faStep4, stepA, h, succOps]
  · by_cases h : faStatsSuccess r <;> simp [faStep5, stepA, h, succOps]
  · by_cases h : faStatsSuccess r <;> simp [faStep6, stepA, h, succOps]
  · by_cases h : faStep7Success r <;> simp [faStep7, stepA, h, succOps]
  · by_cases h : faStep8Counter r <;> simp [faStep8, h, succOps]
  · intro h
    simp only [faStep8Counter, Bool.or_eq_true] at h
    simp only [faStep8Success, Bool.or_eq_true]
    tauto
  · cases hc : faStep9Counter r <;> cases hs : faStep9Success r <;>
      simp [faStep9, hc, hs, succOps]
  · intro h
    simp only [faStep9Counter, Bool.or_eq_true] at h
    simp only [faStep9Success, Bool.or_eq_true]
    tauto

/-- C5, witness: the amended characterization applied to a concrete response
(a status 400 push), discharging the implication hypotheses concretely. -/
theorem c5_amended_witness :
    succOps (ujStep10 rPush400) = (if ujStep10Counter rPush400 then 1 else 0) :=
  (c5_amended Json.null Json.null Json.null Json.null rPush400).2.2.2.2.2.2.2.1

/-- C6, counterexample.  The claim states that a threshold whose referenced
metric is absent from the snapshot yields a fail verdict.  On the empty
snapshot the textSummary threshold sections of both journey scripts render
no verdict at all: the metric-presence guard skips the threshold line
instead of failing it. -/
theorem c6_counterexample :
    ujThresholdLines ⟨[]⟩ = [] ∧ adminThresholdLines ⟨[]⟩ = [] := ⟨rfl, rfl⟩

/-- C6, amended.  The summary rendering is total and never raises an
exception, but a threshold whose referenced metric is absent from the
snapshot is omitted from the rendered THRESHOLDS section entirely: no
verdict, pass or fail, is produced for it. -/
theorem c6_amended (snap : Snapshot)
    (h1 : snap.find? "http_req_duration" = none) :
    hasVerdictFor "http_req_duration" (ujThresholdLines snap) = false
    ∧ hasVerdictFor "http_req_duration" (adminThresholdLines snap) = false := by
  cases hf : snap.find? "http_req_failed" <;>
    simp +decide [ujThresholdLines, adminThresholdLines, hasVerdictFor, h1, hf]

/-- C6, witness: the amended theorem applied to the empty snapshot. -/
theorem c6_amended_witness :
    hasVerdictFor "http_req_duration" (ujThresholdLines ⟨[]⟩) = false :=
  (c6_amended ⟨[]⟩ rfl).1

/-- C7.  Threshold evaluation and summary rendering are pure functions of
the snapshot: rendering the same snapshot data twice yields identical
verdict lists and identical summary content, for the user-journey,
admin-journey and full-api textSummary functions. -/
theorem c7_determinism (s1 s2 : Snapshot) (h : s1 = s2) :
    ujThresholdLines s1 = ujThresholdLines s2
    ∧ ujStepLines s1 = ujStepLines s2
    ∧ adminThresholdLines s1 = adminThresholdLines s2
    ∧ fullApiThresholdLines s1 = fullApiThresholdLines s2
    ∧ fullApiMetricLines s1 = fullApiMetricLines s2 := by
  subst h
  exact ⟨rfl, rfl, rfl, rfl, rfl⟩

/-- C7, witness: determinism at a concrete snapshot. -/
theorem c7_determinism_witness :
    ujThresholdLines sampleSnap = ujThresholdLines sampleSnap :=
  (c7_determinism sampleSnap sampleSnap rfl).1

/-- C8.  For every response with a non-200 status, including a transport
failure (status 0 with null body) and any unparseable body, the login step
of user-journey-test.js and of smartrent-core-api-test.js terminates,
returns null, and records the failure as a single errors Rate observation
of value 1; no run-fatal error is possible since the login functions are
total. -/
theorem c8_login_transport_safety (r : Response) (h : r.status ≠ 200) :
    (ujLogin r).1 = Json.null
    ∧ (ujLogin r).2 =
        [Obs.request "POST" urlAuth, Obs.trend "login_duration" r.latency,
         Obs.rate "errors" 1]
    ∧ (coreLogin r).1 = Json.null
    ∧ (coreLogin r).2 =
        [Obs.request "POST" urlAuth, Obs.trend "login_duration" r.latency,
         Obs.rate "errors" 1] := by
  have hb : (r.status == 200) = false := by
    simp only [beq_eq_false_iff_ne, ne_eq]
    exact h
  refine ⟨?_, ?_, ?_, ?_⟩ <;> simp [ujLogin, coreLogin, ujLoginSuccess, hb]

/-- C8, witness: the transport-failure response status 0 with a null body. -/
theorem c8_login_transport_safety_witness :
    (ujLogin rTransport).1 = Json.null :=
  (c8_login_transport_safety rTransport (by decide)).1

/-- C9.  All iteration state is local to one iteration: a run is exactly the
concatenation of per-iteration traces, each a function of only that
iteration's injected responses, so the steps executed and the observations
recorded by one iteration never depend on state left by a previous
iteration. -/
theorem c9_iteration_independence (envsU : List UJEnv) (envsA : List AdminEnv) :
    runUserJourney envsU = (List.map userJourneyIter envsU).flatten
    ∧ runAdminJourney envsA = (List.map adminJourneyIter envsA).flatten := by
  constructor
  · induction envsU with
    | nil => rfl
    | cons e tl ih => simp [runUserJourney, ih]
  · induction envsA with
    | nil => rfl
    | cons e tl ih => simp [runAdminJourney, ih]

/-- C10.  In the admin journey, once login has succeeded the Get Listing
Reports step always executes exactly once (its duration Trend metric gets
exactly one observation per post-login iteration), and when the Filter
Pending Listings step produced no truthy pending listing id the request
target falls back to the listing id 1. -/
theorem c10_reports_always (env : AdminEnv) (hL : adminLoginSuccess env.login = true) :
    countTrend "admin_get_reports_duration" (adminJourneyIter env) = 1
    ∧ ((adminPendingIdOf env).truthy = false → adminReportsTarget env = Json.num 1) := by
  constructor
  · have ht := adminTokenTruthy env.login hL
    rw [countReports_iter]
    simp [ht]
  · intro h
    simp [adminReportsTarget, jsOr, h]

/-- C10, witness: an admin environment with a successful login and a failing
pending filter, so the fallback target 1 is used. -/
theorem c10_reports_always_witness :
    countTrend "admin_get_reports_duration" (adminJourneyIter cEnvC10) = 1 :=
  (c10_reports_always cEnvC10 (by decide)).1

end SmartRent

